import Mathlib

/-!
Verification of the gba_clock RTC driver against its specification.

The driver (crate gba_clock) keeps a host-side anchor `{base_date, rtc_offset}`
and reconstructs the current date and time from the device's circular seconds
counter.  This file gives a shallow embedding of the driver's arithmetic and of
the `Clock` operations, translated from src/lib.rs, src/date_time.rs,
src/bcd.rs and src/gpio.rs, and proves or refutes the specified properties.

Modelling conventions:
  * the `RangedU32<0, 3_155_759_999>` scalar of `RtcDateTimeOffset` is a `Nat`
    together with explicit `≤ rtcMAX` hypotheses;
  * `time::Date` is its Julian-day number (an `Int`), `time::Time` the number
    of seconds since midnight (a `Nat` below 86400), and
    `time::PrimitiveDateTime` the pair of the two;
  * each fallible device read performed by a `Clock` operation is passed in as
    an `Except Error Nat` argument (the value the read produced, or the typed
    error it failed with); the operation returns the new clock state together
    with its result, so state preservation is expressible.
-/

deriving instance DecidableEq for Except

namespace GbaClock

/-- Errors of the driver (src/error.rs, enum Error). -/
inductive Error where
  | PowerFailure
  | TestMode
  | AmPmBitPresent
  | InvalidStatus (value : Nat)
  | InvalidMonth (value : Nat)
  | InvalidDay (value : Nat)
  | InvalidHour (value : Nat)
  | InvalidMinute (value : Nat)
  | InvalidSecond (value : Nat)
  | InvalidBinaryCodedDecimal (value : Nat)
  | Overflow
  | NotEnabled
  deriving DecidableEq

/-- Upper bound of the scalar space of `RtcDateTimeOffset`
(`RangedU32<0, 3_155_759_999>`, src/date_time.rs line 59). -/
def rtcMAX : Nat := 3155759999

/-- Upper bound of the scalar space of `RtcTimeOffset`
(`RangedU32<0, 86_399>`, src/date_time.rs line 239). -/
def timeMAX : Nat := 86399

/-- Wraparound subtraction of `RtcDateTimeOffset`
(`impl Sub for RtcDateTimeOffset`, src/date_time.rs lines 117-132):
`checked_sub` succeeds exactly when `other ≤ self`; otherwise the result is
`MAX - (other - self) + 1`.  The spec calls this `circular_difference`. -/
def rtcSub (a b : Nat) : Nat :=
  if b ≤ a then a - b else rtcMAX - (b - a) + 1

/-- Wraparound addition of `RtcDateTimeOffset`
(`impl AddAssign for RtcDateTimeOffset`, src/date_time.rs lines 93-115):
`checked_add` succeeds exactly when `a + b ≤ MAX`; on overflow the code
computes `MAX - a + b` when `b < a` and `MAX - b + a` otherwise. -/
def rtcAdd (a b : Nat) : Nat :=
  if a + b ≤ rtcMAX then a + b
  else if b < a then rtcMAX - a + b
  else rtcMAX - b + a

/-- C3: for scalars `a`, `b` in `[0, MAX]`, the wraparound subtraction
satisfies `rtcSub a b + b ≡ a (mod MAX+1)`; it equals `a - b` when `b ≤ a`
and `(MAX - b) + a + 1` when `a < b`. -/
theorem rtcSub_circular (a b : Nat) (ha : a ≤ rtcMAX) (hb : b ≤ rtcMAX) :
    (rtcSub a b + b) % (rtcMAX + 1) = a % (rtcMAX + 1) ∧
    (b ≤ a → rtcSub a b = a - b) ∧
    (a < b → rtcSub a b = (rtcMAX - b) + a + 1) := by
  simp only [rtcSub, rtcMAX] at *
  refine ⟨?_, ?_, ?_⟩
  · split <;> omega
  · intro h; simp [h]
  · intro h; rw [if_neg (by omega)]; omega

/-- Witness for C3 at `a = 5`, `b = 7`. -/
theorem rtcSub_circular_witness :
    (rtcSub 5 7 + 7) % (rtcMAX + 1) = 5 % (rtcMAX + 1) ∧
    (7 ≤ 5 → rtcSub 5 7 = 5 - 7) ∧
    (5 < 7 → rtcSub 5 7 = (rtcMAX - 7) + 5 + 1) :=
  rtcSub_circular 5 7 (by decide) (by decide)

/-! ## Host calendar model (the time crate)

A `time::Date` is modelled by its Julian-day number.  The crate's
representable range is `Date::MIN = -9999-01-01` (Julian day -1930999) to
`Date::MAX = +9999-12-31` (Julian day 5373484); `checked_add` fails exactly
when the resulting date falls outside this range. -/

/-- Julian-day number of `time::Date::MIN` (-9999-01-01). -/
def dateMinJulian : Int := -1930999

/-- Julian-day number of `time::Date::MAX` (+9999-12-31). -/
def dateMaxJulian : Int := 5373484

/-- A `time::PrimitiveDateTime`: a date (Julian day) and the seconds elapsed
since that date's midnight (below 86400 for every value the crate builds). -/
structure PDateTime where
  julianDay : Int
  secs : Nat
  deriving DecidableEq

/-- The date is within the host calendar's representable range. -/
def ValidDate (jd : Int) : Prop := dateMinJulian ≤ jd ∧ jd ≤ dateMaxJulian

/-- A well-formed host datetime: representable date, time below one day. -/
def ValidDateTime (dt : PDateTime) : Prop := ValidDate dt.julianDay ∧ dt.secs < 86400

/-- `Date::midnight()`: the datetime at the start of the day. -/
def midnight (jd : Int) : PDateTime := ⟨jd, 0⟩

/-- `PrimitiveDateTime::checked_add` for a non-negative whole-second duration:
carries whole days into the date and fails when the resulting date leaves the
representable range. -/
def dtCheckedAdd (dt : PDateTime) (durationSecs : Nat) : Option PDateTime :=
  let total := dt.secs + durationSecs
  let jd : Int := dt.julianDay + (total / 86400 : Nat)
  if dateMinJulian ≤ jd ∧ jd ≤ dateMaxJulian then some ⟨jd, total % 86400⟩ else none

/-- `Date::checked_add` for a non-negative whole-second duration: moves the
date by the duration's whole days and fails when it leaves the range. -/
def dateCheckedAdd (jd : Int) (durationSecs : Nat) : Option Int :=
  let jd2 : Int := jd + (durationSecs / 86400 : Nat)
  if dateMinJulian ≤ jd2 ∧ jd2 ≤ dateMaxJulian then some jd2 else none

/-! ## The Clock orchestrator (src/lib.rs) -/

/-- The driver's state (src/lib.rs lines 93-105): a host base date and the
device scalar captured when the base date's time-of-day was anchored. -/
structure Clock where
  base_date : Int
  rtc_offset : Nat
  deriving DecidableEq

/-- The elapsed-duration computation inlined in `read_datetime`, `read_date`
and `write_date` (src/lib.rs lines 144-154 and analogues): `d - r` when
`r ≤ d`, else `MAX - r + d + 1` (`RangedU32::MAX.unchecked_sub(r)
.unchecked_add(d).unchecked_add(1)`). -/
def readDuration (d r : Nat) : Nat :=
  if r ≤ d then d - r else rtcMAX - r + d + 1

/-- `Clock::read_datetime` (src/lib.rs lines 141-160).  `dev` is the result of
`try_read_datetime_offset()`; an error propagates via `?` with the state
untouched; otherwise the elapsed duration is added to the base date's
midnight, `Error::Overflow` when unrepresentable. -/
def Clock.read_datetime (c : Clock) (dev : Except Error Nat) :
    Clock × Except Error PDateTime :=
  match dev with
  | .error e => (c, .error e)
  | .ok d =>
    (c, match dtCheckedAdd (midnight c.base_date) (readDuration d c.rtc_offset) with
        | some dt => .ok dt
        | none => .error Error.Overflow)

/-- `Clock::write_datetime` (src/lib.rs lines 168-173): re-anchors at the
fresh device offset; the new `rtc_offset` is the wraparound difference of the
device offset and the requested time-of-day (`From<Time>` gives
`hour*3600 + minute*60 + second`, src/date_time.rs lines 77-85). -/
def Clock.write_datetime (c : Clock) (dev : Except Error Nat) (dt : PDateTime) :
    Clock × Except Error Unit :=
  match dev with
  | .error e => (c, .error e)
  | .ok d => ({ base_date := dt.julianDay, rtc_offset := rtcSub d dt.secs }, .ok ())

/-- State produced by a successful `Clock::new(datetime)` (src/lib.rs lines
114-138): after the hardware initialisation, the anchor is computed from the
device offset read exactly as in `write_datetime`. -/
def Clock.new (dev : Except Error Nat) (datetime : PDateTime) : Except Error Clock :=
  match dev with
  | .error e => .error e
  | .ok d => .ok { base_date := datetime.julianDay, rtc_offset := rtcSub d datetime.secs }

/-- `Clock::read_date` (src/lib.rs lines 176-192): like `read_datetime` but
adds the elapsed duration's whole days to the base date. -/
def Clock.read_date (c : Clock) (dev : Except Error Nat) : Clock × Except Error Int :=
  match dev with
  | .error e => (c, .error e)
  | .ok d =>
    (c, match dateCheckedAdd c.base_date (readDuration d c.rtc_offset) with
        | some jd => .ok jd
        | none => .error Error.Overflow)

/-- `Clock::write_date` (src/lib.rs lines 202-220): stores the new date and
re-anchors `rtc_offset` at the device offset minus the currently elapsed
time-of-day.  The source performs `rtc_offset.0.unchecked_sub(
current_time_offset)`, whose no-underflow obligation is examined below; in
this total model the subtraction is the truncated `Nat` one. -/
def Clock.write_date (c : Clock) (dev : Except Error Nat) (date : Int) :
    Clock × Except Error Unit :=
  match dev with
  | .error e => (c, .error e)
  | .ok d =>
    let current_time_offset := readDuration d c.rtc_offset % 86400
    ({ base_date := date, rtc_offset := d - current_time_offset }, .ok ())

/-- `Clock::read_time` (src/lib.rs lines 226-242).  `dev3` is the result of
the three-byte `try_read_time_offset()` (a scalar in `[0, 86399]`); the
stored offset reduced mod 86400 (`From<RtcDateTimeOffset> for RtcTimeOffset`,
src/date_time.rs lines 252-257) is subtracted with the `RtcTimeOffset`
wraparound (circumference 86400). -/
def Clock.read_time (c : Clock) (dev3 : Except Error Nat) : Clock × Except Error Nat :=
  match dev3 with
  | .error e => (c, .error e)
  | .ok t =>
    let stored := c.rtc_offset % 86400
    (c, .ok (if stored ≤ t then t - stored else timeMAX - stored + t + 1))

/-- `Clock::write_time` (src/lib.rs lines 252-280): computes the current
time-of-day as in `read_time`, takes the signed difference with the requested
time and applies it to `rtc_offset` through the wraparound subtraction or the
wraparound addition. -/
def Clock.write_time (c : Clock) (dev3 : Except Error Nat) (time : Nat) :
    Clock × Except Error Unit :=
  match dev3 with
  | .error e => (c, .error e)
  | .ok t =>
    let stored := c.rtc_offset % 86400
    let current_time := if stored ≤ t then t - stored else timeMAX - stored + t + 1
    let delta : Int := (current_time : Int) - (time : Int)
    let r := if delta < 0 then rtcSub c.rtc_offset delta.natAbs
             else rtcAdd c.rtc_offset delta.natAbs
    ({ c with rtc_offset := r }, .ok ())

/-- The duration inlined in the read paths agrees with the wraparound
subtraction `circular_difference` of `impl Sub for RtcDateTimeOffset`. -/
theorem readDuration_eq_rtcSub (d r : Nat) (hr : r ≤ rtcMAX) :
    readDuration d r = rtcSub d r := by
  simp only [readDuration, rtcSub, rtcMAX] at *
  split <;> omega

/-- C1: with device offset `d`, `read_datetime` returns
`Ok(base_date.midnight() + circular_difference(d, rtc_offset))` when that sum
is representable and `Err(Overflow)` otherwise, leaving the state unchanged. -/
theorem Clock.read_datetime_spec (c : Clock) (d : Nat)
    (_hd : d ≤ rtcMAX) (hr : c.rtc_offset ≤ rtcMAX) :
    Clock.read_datetime c (.ok d) =
      (c, match dtCheckedAdd (midnight c.base_date) (rtcSub d c.rtc_offset) with
          | some dt => .ok dt
          | none => .error Error.Overflow) := by
  simp only [Clock.read_datetime, readDuration_eq_rtcSub d c.rtc_offset hr]

/-- Witness for C1 at the clock `{base_date 0, rtc_offset 0}` and device
offset 0. -/
theorem Clock.read_datetime_spec_witness :
    Clock.read_datetime ⟨0, 0⟩ (.ok 0) =
      (⟨0, 0⟩, match dtCheckedAdd (midnight 0) (rtcSub 0 0) with
               | some dt => .ok dt
               | none => .error Error.Overflow) :=
  Clock.read_datetime_spec ⟨0, 0⟩ 0 (by decide) (by decide)

/-- Re-anchoring at time-of-day `t` and reading back at the same device
offset recovers `t`. -/
theorem readDuration_rtcSub_self (d t : Nat) (hd : d ≤ rtcMAX) (ht : t ≤ rtcMAX) :
    readDuration d (rtcSub d t) = t := by
  simp only [readDuration, rtcSub, rtcMAX] at *
  by_cases h : t ≤ d
  · simp only [h, if_true]
    split <;> omega
  · simp only [h, if_false]
    split <;> omega

/-- C2: anchoring the clock at a valid datetime `D` (by `write_datetime`, or
by a successful `Clock::new`, both of which store the same state) and then
reading while the device still reports the same offset `d` returns `Ok(D)`. -/
theorem Clock.anchor_read_roundtrip (c : Clock) (d : Nat) (D : PDateTime)
    (hd : d ≤ rtcMAX) (hD : ValidDateTime D) :
    Clock.new (.ok d) D = .ok (Clock.write_datetime c (.ok d) D).1 ∧
    (Clock.read_datetime (Clock.write_datetime c (.ok d) D).1 (.ok d)).2 = .ok D := by
  obtain ⟨jdv, sv⟩ := D
  obtain ⟨⟨hmin, hmax⟩, hs⟩ := hD
  have hmin' : dateMinJulian ≤ jdv := hmin
  have hmax' : jdv ≤ dateMaxJulian := hmax
  have hs' : sv < 86400 := hs
  refine ⟨rfl, ?_⟩
  have hrd : readDuration d (rtcSub d sv) = sv :=
    readDuration_rtcSub_self d sv hd (by simp only [rtcMAX] at *; omega)
  have e0 : sv / 86400 = 0 := by omega
  have e1 : ((sv : Int)) / 86400 = 0 := by omega
  have e2 : sv % 86400 = sv := by omega
  simp [Clock.write_datetime, Clock.read_datetime, midnight, dtCheckedAdd,
    hrd, e0, e1, e2, hmin', hmax']

/-- Witness for C2 at `{base_date 0, rtc_offset 0}`, device offset 100, and
the datetime 2000-01-01T01:00:00 (Julian day 2451545, 3600 seconds). -/
theorem Clock.anchor_read_roundtrip_witness :
    Clock.new (.ok 100) ⟨2451545, 3600⟩ =
      .ok (Clock.write_datetime ⟨0, 0⟩ (.ok 100) ⟨2451545, 3600⟩).1 ∧
    (Clock.read_datetime (Clock.write_datetime ⟨0, 0⟩ (.ok 100) ⟨2451545, 3600⟩).1
        (.ok 100)).2 = .ok ⟨2451545, 3600⟩ :=
  Clock.anchor_read_roundtrip ⟨0, 0⟩ 100 ⟨2451545, 3600⟩ (by decide)
    ⟨⟨by decide, by decide⟩, by decide⟩

/-- C7: `write_time` does NOT always preserve the date.  With
`rtc_offset = MAX` (a reachable anchor) and the device advanced two seconds
past the anchor (full offset 1 after wrapping, time offset 1), `write_time`
to midnight drives `rtc_offset` through the faulty wraparound addition:
`read_date` returned `base_date` before the write and returns
`base_date + 36524` days after it. -/
theorem Clock.write_time_changes_date :
    (Clock.read_date ⟨0, rtcMAX⟩ (.ok 1)).2 = .ok 0 ∧
    (Clock.write_time ⟨0, rtcMAX⟩ (.ok 1) 0).2 = .ok () ∧
    (Clock.write_time ⟨0, rtcMAX⟩ (.ok 1) 0).1.rtc_offset = 2 ∧
    (Clock.read_date (Clock.write_time ⟨0, rtcMAX⟩ (.ok 1) 0).1 (.ok 1)).2 =
      .ok 36524 := by
  refine ⟨?_, rfl, ?_, ?_⟩ <;> decide

/-- C8: reads never mutate the clock state, and every operation whose device
read fails propagates that error with `base_date` and `rtc_offset` exactly as
they were. -/
theorem Clock.no_state_change_on_error (c : Clock) (e : Error) (dt : PDateTime)
    (date : Int) (t : Nat) :
    (∀ dev, (Clock.read_datetime c dev).1 = c ∧ (Clock.read_date c dev).1 = c ∧
      (Clock.read_time c dev).1 = c) ∧
    Clock.read_datetime c (.error e) = (c, .error e) ∧
    Clock.read_date c (.error e) = (c, .error e) ∧
    Clock.read_time c (.error e) = (c, .error e) ∧
    Clock.write_datetime c (.error e) dt = (c, .error e) ∧
    Clock.write_date c (.error e) date = (c, .error e) ∧
    Clock.write_time c (.error e) t = (c, .error e) := by
  refine ⟨?_, rfl, rfl, rfl, rfl, rfl, rfl⟩
  intro dev
  cases dev <;> exact ⟨rfl, rfl, rfl⟩

/-- C10: the unchecked subtraction in `write_date` CAN underflow.  With
`rtc_offset = MAX` and the device counter wrapped to offset 0 (one second
past the anchor), the current time offset `circular_difference(0, MAX) %
86400` equals 1, which exceeds the device offset 0, so
`rtc_offset.0.unchecked_sub(current_time_offset)` would compute `0 - 1`. -/
theorem Clock.write_date_unchecked_sub_underflows :
    readDuration 0 rtcMAX % 86400 = 1 ∧
    ¬ readDuration 0 rtcMAX % 86400 ≤ 0 ∧
    (Clock.write_date ⟨0, rtcMAX⟩ (.ok 0) 0).1.rtc_offset = 0 - 1 := by
  refine ⟨?_, ?_, ?_⟩ <;> decide

/-- C4: the wraparound addition does NOT compute `(a + b) % (MAX + 1)`: at
`a = MAX`, `b = 1` the code's overflow branch yields `MAX - a + b = 1`,
while `(MAX + 1) % (MAX + 1) = 0`. -/
theorem rtcAdd_wraparound_failure :
    rtcAdd rtcMAX 1 = 1 ∧
    (rtcMAX + 1) % (rtcMAX + 1) = 0 ∧
    rtcAdd rtcMAX 1 ≠ (rtcMAX + 1) % (rtcMAX + 1) := by
  refine ⟨?_, ?_, ?_⟩ <;> decide

/-! ## BCD codec, calendar fields and the Status register
(src/bcd.rs, src/gpio.rs) -/

/-- The byte wrapped by `Bcd` is a valid binary coded decimal
(`TryFrom<u8> for Bcd`, src/bcd.rs lines 41-51): below `0xa0` with a low
nibble below `0x0a`. -/
def BcdValid (value : Nat) : Prop := value < 0xa0 ∧ value &&& 0x0f < 0x0a

/-- `Bcd::to_binary` (src/bcd.rs lines 33-37). -/
def Bcd.to_binary (bcd : Nat) : Nat := 10 * (bcd >>> 4 &&& 0x0f) + (bcd &&& 0x0f)

/-- `TryFrom<Bcd> for Hour` (src/bcd.rs lines 84-98): the raw AM/PM bit is
checked before the 0-23 range check on the decoded value. -/
def Hour.tryFrom (bcd : Nat) : Except Error Nat :=
  if bcd &&& 0b10000000 ≠ 0 then .error .AmPmBitPresent
  else if Bcd.to_binary bcd ≤ 23 then .ok (Bcd.to_binary bcd)
  else .error (.InvalidHour (Bcd.to_binary bcd))

/-- `TryFrom<Bcd> for Second` (src/bcd.rs lines 114-128): the raw test-mode
bit is checked before the 0-59 range check on the decoded value. -/
def Second.tryFrom (bcd : Nat) : Except Error Nat :=
  if bcd &&& 0b10000000 ≠ 0 then .error .TestMode
  else if Bcd.to_binary bcd ≤ 59 then .ok (Bcd.to_binary bcd)
  else .error (.InvalidSecond (Bcd.to_binary bcd))

/-- `TryFrom<u8> for Status` (src/gpio.rs lines 183-194): reserved bits 0, 2
and 4 (mask `0b0001_0101`) must be clear. -/
def Status.tryFrom (value : Nat) : Except Error Nat :=
  if value &&& 0b00010101 ≠ 0 then .error (.InvalidStatus value) else .ok value

/-- C6: for a byte wrapped as a valid BCD, `Hour::try_from` fails with
`AmPmBitPresent` and `Second::try_from` fails with `TestMode` whenever the
raw top bit is set, before any range check; `Status::try_from` fails with
`InvalidStatus(byte)` exactly when one of the reserved bits 0, 2, 4 is set. -/
theorem field_flag_errors (v : Nat) (_hv : v < 256) :
    (BcdValid v → v &&& 0b10000000 ≠ 0 →
      Hour.tryFrom v = .error .AmPmBitPresent ∧
      Second.tryFrom v = .error .TestMode) ∧
    (v &&& 0b00010101 ≠ 0 → Status.tryFrom v = .error (.InvalidStatus v)) ∧
    (v &&& 0b00010101 = 0 → Status.tryFrom v = .ok v) := by
  refine ⟨fun _ hbit => ⟨?_, ?_⟩, fun h => ?_, fun h => ?_⟩
  · simp [Hour.tryFrom, hbit]
  · simp [Second.tryFrom, hbit]
  · simp [Status.tryFrom, h]
  · simp [Status.tryFrom, h]

/-- Witness for C6 at the byte `0x85` (a valid BCD whose top bit and whose
reserved bits 0 and 2 are set). -/
theorem field_flag_errors_witness :
    (BcdValid 0x85 → 0x85 &&& 0b10000000 ≠ 0 →
      Hour.tryFrom 0x85 = .error .AmPmBitPresent ∧
      Second.tryFrom 0x85 = .error .TestMode) ∧
    (0x85 &&& 0b00010101 ≠ 0 → Status.tryFrom 0x85 = .error (.InvalidStatus 0x85)) ∧
    (0x85 &&& 0b00010101 = 0 → Status.tryFrom 0x85 = .ok 0x85) :=
  field_flag_errors 0x85 (by decide)

/-! ## Serial transport (src/gpio.rs) -/

/-- Register bit for the serial clock line (src/gpio.rs line 73). -/
def Data.SCK : Nat := 0b001

/-- Register bit for the serial data line (src/gpio.rs line 75). -/
def Data.SIO : Nat := 0b010

/-- Register bit for the chip-select line (src/gpio.rs line 77). -/
def Data.CS : Nat := 0b100

/-- Command opcodes (src/gpio.rs lines 39-45). -/
def Command.Reset : Nat := 0x60

def Command.WriteStatus : Nat := 0x62

def Command.ReadStatus : Nat := 0x63

def Command.ReadDateTime : Nat := 0x65

def Command.ReadTime : Nat := 0x67

/-- `send_command` (src/gpio.rs lines 122-134): the sequence of DATA register
values written.  `bits = (command as u8) << 1`; for `i` from 7 down to 0 the
value `bit = (bits >> i) & 2` is written three times with CS and once more
with CS and SCK. -/
def send_command (command : Nat) : List Nat :=
  let bits := (command <<< 1) % 256
  (((List.range 8).reverse).map (fun i =>
    let bit := (bits >>> i) &&& 2
    [Data.CS ||| bit, Data.CS ||| bit, Data.CS ||| bit,
      Data.CS ||| Data.SCK ||| bit])).flatten

/-- The SIO line level of each register write. -/
def sioLine (writes : List Nat) : List Nat := writes.map (fun w => w >>> 1 &&& 1)

/-- The SCK line level of each register write. -/
def sckLine (writes : List Nat) : List Nat := writes.map (fun w => w &&& 1)

/-- The bits of a byte in MSB-first order. -/
def byteBitsMSB (b : Nat) : List Nat :=
  ((List.range 8).reverse).map (fun i => b >>> i &&& 1)

/-- C9 counterexample: for `cmd = Reset = 0x60`, the SIO levels emitted by
`send_command` are not the bits of the byte `cmd << 1 = 0xc0` in MSB-first
order (the first emitted bit is 0, but bit 7 of `0xc0` is 1). -/
theorem send_command_not_cmd_shl1 :
    sioLine (send_command Command.Reset) ≠
      (byteBitsMSB ((Command.Reset <<< 1) % 256)).flatMap (fun b => [b, b, b, b]) ∧
    (sioLine (send_command Command.Reset)).head? = some 0 ∧
    (byteBitsMSB ((Command.Reset <<< 1) % 256)).head? = some 1 := by
  refine ⟨?_, ?_, ?_⟩ <;> decide

/-- C9 amended: for each protocol command, `send_command` emits on the SIO
line exactly the 8 bits of the command byte itself in MSB-first order, each
bit held across four successive DATA writes of which only the fourth raises
SCK. -/
theorem send_command_emits_command_msb_first :
    (sioLine (send_command Command.Reset) =
        (byteBitsMSB Command.Reset).flatMap (fun b => [b, b, b, b]) ∧
      sckLine (send_command Command.Reset) = (List.replicate 8 [0, 0, 0, 1]).flatten) ∧
    (sioLine (send_command Command.WriteStatus) =
        (byteBitsMSB Command.WriteStatus).flatMap (fun b => [b, b, b, b]) ∧
      sckLine (send_command Command.WriteStatus) = (List.replicate 8 [0, 0, 0, 1]).flatten) ∧
    (sioLine (send_command Command.ReadStatus) =
        (byteBitsMSB Command.ReadStatus).flatMap (fun b => [b, b, b, b]) ∧
      sckLine (send_command Command.ReadStatus) = (List.replicate 8 [0, 0, 0, 1]).flatten) ∧
    (sioLine (send_command Command.ReadDateTime) =
        (byteBitsMSB Command.ReadDateTime).flatMap (fun b => [b, b, b, b]) ∧
      sckLine (send_command Command.ReadDateTime) = (List.replicate 8 [0, 0, 0, 1]).flatten) ∧
    (sioLine (send_command Command.ReadTime) =
        (byteBitsMSB Command.ReadTime).flatMap (fun b => [b, b, b, b]) ∧
      sckLine (send_command Command.ReadTime) = (List.replicate 8 [0, 0, 0, 1]).flatten) := by
  refine ⟨⟨?_, ?_⟩, ⟨?_, ?_⟩, ⟨?_, ?_⟩, ⟨?_, ?_⟩, ⟨?_, ?_⟩⟩ <;> decide

/-! ## The offset calculation (src/date_time.rs lines 197-233) -/

/-- Leap days elapsed before `year` under the chip's every-4th-year rule
(src/date_time.rs lines 206-210). -/
def leapDaysElapsed (year : Nat) : Nat :=
  if 0 < year then (year - 1) / 4 + 1 else 0

/-- Days before each month in a non-leap year (src/date_time.rs lines
211-224; the source matches on `time::Month`, modelled here as 1-12). -/
def daysBeforeMonth (month : Nat) : Nat :=
  match month with
  | 1 => 0
  | 2 => 31
  | 3 => 59
  | 4 => 90
  | 5 => 120
  | 6 => 151
  | 7 => 181
  | 8 => 212
  | 9 => 243
  | 10 => 273
  | 11 => 304
  | _ => 334

/-- Extra day for months after February of a leap year (src/date_time.rs
lines 225-229). -/
def leapDayAdjust (year month : Nat) : Nat :=
  if year % 4 = 0 ∧ 2 < month then 1 else 0

/-- The `days` local of `calculate_rtc_offset` (src/date_time.rs lines
205-231). -/
def dayCount (year month day : Nat) : Nat :=
  year * 365 + leapDaysElapsed year + daysBeforeMonth month
    + leapDayAdjust year month + day - 1

/-- `calculate_rtc_offset` (src/date_time.rs lines 197-233). -/
def calculate_rtc_offset (year month day hour minute second : Nat) : Nat :=
  second + minute * 60 + hour * 3600 + dayCount year month day * 86400

/-- Days in each month under the chip's every-4th-year leap rule.  Not in the
source: it delimits the valid calendar dates over which the amended
monotonicity statement quantifies. -/
def daysInMonth (year month : Nat) : Nat :=
  if month = 2 then (if year % 4 = 0 then 29 else 28)
  else if month = 4 ∨ month = 6 ∨ month = 9 ∨ month = 11 then 30 else 31

/-- The ranges the field types admit, as the claim states them: Year 0-99,
Month 1-12, Day 1-31, Hour 0-23, Minute and Second 0-59. -/
def AdmittedFields (y m d h mi s : Nat) : Prop :=
  y ≤ 99 ∧ 1 ≤ m ∧ m ≤ 12 ∧ 1 ≤ d ∧ d ≤ 31 ∧ h ≤ 23 ∧ mi ≤ 59 ∧ s ≤ 59

/-- Valid calendar field tuples: as admitted, but the day exists in its month
under the chip's leap rule. -/
def ValidFields (y m d h mi s : Nat) : Prop :=
  y ≤ 99 ∧ 1 ≤ m ∧ m ≤ 12 ∧ 1 ≤ d ∧ d ≤ daysInMonth y m ∧ h ≤ 23 ∧ mi ≤ 59 ∧ s ≤ 59

/-- Lexicographic strict order on (year, month, day, hour, minute, second). -/
def FieldsLt (y₁ m₁ d₁ h₁ mi₁ s₁ y₂ m₂ d₂ h₂ mi₂ s₂ : Nat) : Prop :=
  y₁ < y₂ ∨ (y₁ = y₂ ∧ (m₁ < m₂ ∨ (m₁ = m₂ ∧ (d₁ < d₂ ∨ (d₁ = d₂ ∧
    (h₁ < h₂ ∨ (h₁ = h₂ ∧ (mi₁ < mi₂ ∨ (mi₁ = mi₂ ∧ s₁ < s₂)))))))))

instance (y m d h mi s : Nat) : Decidable (AdmittedFields y m d h mi s) := by
  unfold AdmittedFields
  infer_instance

instance (y m d h mi s : Nat) : Decidable (ValidFields y m d h mi s) := by
  unfold ValidFields
  infer_instance

instance (y₁ m₁ d₁ h₁ mi₁ s₁ y₂ m₂ d₂ h₂ mi₂ s₂ : Nat) :
    Decidable (FieldsLt y₁ m₁ d₁ h₁ mi₁ s₁ y₂ m₂ d₂ h₂ mi₂ s₂) := by
  unfold FieldsLt
  infer_instance

theorem daysInMonth_le (y m : Nat) : daysInMonth y m ≤ 31 := by
  simp only [daysInMonth]
  split <;> split <;> omega

theorem monthStep_leap : ∀ m₁, m₁ < 13 → ∀ m₂, m₂ < 13 → 1 ≤ m₁ → m₁ < m₂ →
    daysBeforeMonth m₁ + leapDayAdjust 0 m₁ + daysInMonth 0 m₁ ≤
      daysBeforeMonth m₂ + leapDayAdjust 0 m₂ := by decide

theorem monthStep_nonleap : ∀ m₁, m₁ < 13 → ∀ m₂, m₂ < 13 → 1 ≤ m₁ → m₁ < m₂ →
    daysBeforeMonth m₁ + leapDayAdjust 1 m₁ + daysInMonth 1 m₁ ≤
      daysBeforeMonth m₂ + leapDayAdjust 1 m₂ := by decide

theorem monthDayMax_leap : ∀ m, m < 13 → ∀ d, d < 32 → 1 ≤ m → d ≤ daysInMonth 0 m →
    daysBeforeMonth m + leapDayAdjust 0 m + d ≤ 366 := by decide

theorem monthDayMax_nonleap : ∀ m, m < 13 → ∀ d, d < 32 → 1 ≤ m → d ≤ daysInMonth 1 m →
    daysBeforeMonth m + leapDayAdjust 1 m + d ≤ 365 := by decide

theorem leapDayAdjust_of_leap (y m : Nat) (hy : y % 4 = 0) :
    leapDayAdjust y m = leapDayAdjust 0 m := by
  simp [leapDayAdjust, hy]

theorem leapDayAdjust_of_nonleap (y m : Nat) (hy : ¬ y % 4 = 0) :
    leapDayAdjust y m = leapDayAdjust 1 m := by
  simp [leapDayAdjust, hy]

theorem daysInMonth_of_leap (y m : Nat) (hy : y % 4 = 0) :
    daysInMonth y m = daysInMonth 0 m := by
  simp [daysInMonth, hy]

theorem daysInMonth_of_nonleap (y m : Nat) (hy : ¬ y % 4 = 0) :
    daysInMonth y m = daysInMonth 1 m := by
  simp [daysInMonth, hy]

theorem leapDaysElapsed_closed (y : Nat) :
    leapDaysElapsed y + (if y % 4 = 0 then 1 else 0) = y / 4 + 1 := by
  simp only [leapDaysElapsed]
  split <;> split <;> omega

theorem leapDaysElapsed_ge (y₁ y₂ : Nat) (h : y₁ < y₂) :
    y₁ / 4 + 1 ≤ leapDaysElapsed y₂ := by
  simp only [leapDaysElapsed]
  rw [if_pos (by omega)]
  omega

theorem dayCount_day_lt (y m d₁ d₂ : Nat) (hd₁ : 1 ≤ d₁) (h : d₁ < d₂) :
    dayCount y m d₁ < dayCount y m d₂ := by
  simp only [dayCount]
  omega

theorem dayCount_month_lt (y m₁ d₁ m₂ d₂ : Nat) (hm₁ : 1 ≤ m₁) (hlt : m₁ < m₂)
    (hm₂ : m₂ ≤ 12) (hd₁ : 1 ≤ d₁) (hdu : d₁ ≤ daysInMonth y m₁) (hd₂ : 1 ≤ d₂) :
    dayCount y m₁ d₁ < dayCount y m₂ d₂ := by
  have hK : daysBeforeMonth m₁ + leapDayAdjust y m₁ + daysInMonth y m₁ ≤
      daysBeforeMonth m₂ + leapDayAdjust y m₂ := by
    by_cases hy : y % 4 = 0
    · rw [leapDayAdjust_of_leap y m₁ hy, leapDayAdjust_of_leap y m₂ hy,
        daysInMonth_of_leap y m₁ hy]
      exact monthStep_leap m₁ (by omega) m₂ (by omega) hm₁ hlt
    · rw [leapDayAdjust_of_nonleap y m₁ hy, leapDayAdjust_of_nonleap y m₂ hy,
        daysInMonth_of_nonleap y m₁ hy]
      exact monthStep_nonleap m₁ (by omega) m₂ (by omega) hm₁ hlt
  simp only [dayCount]
  omega

theorem dayCount_year_lt (y₁ m₁ d₁ y₂ m₂ d₂ : Nat) (hy : y₁ < y₂)
    (hm₁ : 1 ≤ m₁) (hm₁u : m₁ ≤ 12) (hd₁ : 1 ≤ d₁) (hdu : d₁ ≤ daysInMonth y₁ m₁)
    (_hm₂ : 1 ≤ m₂) (hd₂ : 1 ≤ d₂) :
    dayCount y₁ m₁ d₁ < dayCount y₂ m₂ d₂ := by
  have hc := leapDaysElapsed_closed y₁
  have hdm := daysInMonth_le y₁ m₁
  have hK2 : leapDaysElapsed y₁ + (daysBeforeMonth m₁ + leapDayAdjust y₁ m₁ + d₁) ≤
      365 + y₁ / 4 + 1 := by
    by_cases hy1 : y₁ % 4 = 0
    · have h2 := monthDayMax_leap m₁ (by omega) d₁ (by omega) hm₁
        (by rw [← daysInMonth_of_leap y₁ m₁ hy1]; exact hdu)
      rw [leapDayAdjust_of_leap y₁ m₁ hy1]
      rw [if_pos hy1] at hc
      omega
    · have h2 := monthDayMax_nonleap m₁ (by omega) d₁ (by omega) hm₁
        (by rw [← daysInMonth_of_nonleap y₁ m₁ hy1]; exact hdu)
      rw [leapDayAdjust_of_nonleap y₁ m₁ hy1]
      rw [if_neg hy1] at hc
      omega
  have hge := leapDaysElapsed_ge y₁ y₂ hy
  simp only [dayCount]
  omega

theorem calculate_lt_of_dayCount_lt (y₁ m₁ d₁ h₁ mi₁ s₁ y₂ m₂ d₂ h₂ mi₂ s₂ : Nat)
    (hh₁ : h₁ ≤ 23) (hmi₁ : mi₁ ≤ 59) (hs₁ : s₁ ≤ 59)
    (hdc : dayCount y₁ m₁ d₁ < dayCount y₂ m₂ d₂) :
    calculate_rtc_offset y₁ m₁ d₁ h₁ mi₁ s₁ < calculate_rtc_offset y₂ m₂ d₂ h₂ mi₂ s₂ := by
  simp only [calculate_rtc_offset]
  omega

/-- C5 counterexample: over all values the field types admit, the offset is
NOT lexicographically monotone: (year 0, February, day 31) precedes (year 0,
March, day 1) lexicographically, yet its offset is larger. -/
theorem calculate_rtc_offset_not_lex_monotone :
    AdmittedFields 0 2 31 0 0 0 ∧ AdmittedFields 0 3 1 0 0 0 ∧
    FieldsLt 0 2 31 0 0 0 0 3 1 0 0 0 ∧
    calculate_rtc_offset 0 3 1 0 0 0 < calculate_rtc_offset 0 2 31 0 0 0 := by
  exact ⟨by decide, by decide, by decide, by decide⟩

/-- C5 amended: the offset is 0 at the cycle's start and 3_155_759_999 at its
end, and over valid calendar dates (day within the month under the chip's
leap rule) it is strictly monotone in lexicographic field order. -/
theorem calculate_rtc_offset_monotone :
    calculate_rtc_offset 0 1 1 0 0 0 = 0 ∧
    calculate_rtc_offset 99 12 31 23 59 59 = 3155759999 ∧
    ∀ y₁ m₁ d₁ h₁ mi₁ s₁ y₂ m₂ d₂ h₂ mi₂ s₂ : Nat,
      ValidFields y₁ m₁ d₁ h₁ mi₁ s₁ → ValidFields y₂ m₂ d₂ h₂ mi₂ s₂ →
      FieldsLt y₁ m₁ d₁ h₁ mi₁ s₁ y₂ m₂ d₂ h₂ mi₂ s₂ →
      calculate_rtc_offset y₁ m₁ d₁ h₁ mi₁ s₁ < calculate_rtc_offset y₂ m₂ d₂ h₂ mi₂ s₂ := by
  refine ⟨by decide, by decide, ?_⟩
  intro y₁ m₁ d₁ h₁ mi₁ s₁ y₂ m₂ d₂ h₂ mi₂ s₂ hv₁ hv₂ hlt
  obtain ⟨hy₁, hm₁, hm₁u, hd₁, hd₁u, hh₁, hmi₁, hs₁⟩ := hv₁
  obtain ⟨hy₂, hm₂, hm₂u, hd₂, hd₂u, hh₂, hmi₂, hs₂⟩ := hv₂
  rcases hlt with hy | ⟨rfl, hm | ⟨rfl, hd | ⟨rfl, hh | ⟨rfl, hmi | ⟨rfl, hs⟩⟩⟩⟩⟩
  · exact calculate_lt_of_dayCount_lt _ _ _ _ _ _ _ _ _ _ _ _ hh₁ hmi₁ hs₁
      (dayCount_year_lt y₁ m₁ d₁ y₂ m₂ d₂ hy hm₁ hm₁u hd₁ hd₁u hm₂ hd₂)
  · exact calculate_lt_of_dayCount_lt _ _ _ _ _ _ _ _ _ _ _ _ hh₁ hmi₁ hs₁
      (dayCount_month_lt y₁ m₁ d₁ m₂ d₂ hm₁ hm hm₂u hd₁ hd₁u hd₂)
  · exact calculate_lt_of_dayCount_lt _ _ _ _ _ _ _ _ _ _ _ _ hh₁ hmi₁ hs₁
      (dayCount_day_lt y₁ m₁ d₁ d₂ hd₁ hd)
  · simp only [calculate_rtc_offset]
    omega
  · simp only [calculate_rtc_offset]
    omega
  · simp only [calculate_rtc_offset]
    omega

/-- Witness for the monotonicity part of C5: one second after the cycle's
start is strictly later. -/
theorem calculate_rtc_offset_monotone_witness :
    calculate_rtc_offset 0 1 1 0 0 0 < calculate_rtc_offset 0 1 1 0 0 1 :=
  calculate_rtc_offset_monotone.2.2 0 1 1 0 0 0 0 1 1 0 0 1
    (by decide) (by decide) (by decide)

end GbaClock
